import Mathlib

/-!
Shallow embedding of the AWS MCP server (tool dispatch, resource routing and
the stdio transport loop) together with proofs about the spec claims.

Conventions of the embedding:
* Go `map[string]interface{}` argument maps become `Args := String → Option JValue`
  (a Go map lookup of a missing key yields the zero value, here `none`).
* Go dynamic JSON values become the `JValue` inductive; `json.Marshal` output is
  kept structured (a `JValue`) rather than re-serialized to bytes, since every
  claim is about field content, not byte layout.
* `time.Now()` is passed in as an explicit `now : String` parameter.
* The AWS SDK client is the external collaborator: a record of pure
  functions returning `Except String`, one field per method the server calls.
* Go strings used as URIs are modelled as `List Char` so that the
  prefix/trim routing of `ReadResource` can be reasoned about symbolically.
-/

/-- Dynamic JSON-like value, the image of Go `interface{}` payloads. -/
inductive JValue where
  | str (s : String)
  | num (n : Int)
  | bool (b : Bool)
  | null
  | arr (xs : List JValue)
  | obj (fields : List (String × JValue))

/-- Whether a dynamic value is a Go `string` (type-assertion succeeds). -/
def JValue.isString : JValue → Bool
  | .str _ => true
  | _ => false

/-- Whether a dynamic value is Go `nil`. -/
def JValue.isNull : JValue → Bool
  | .null => true
  | _ => false

/-- A Go `map[string]interface{}` of tool-call arguments. -/
def Args : Type := String → Option JValue

/-- The empty arguments map. -/
def emptyArgs : Args := fun _ => none

/-- Map update (Go map assignment / a key present in the literal). -/
def Args.set (a : Args) (k : String) (v : JValue) : Args :=
  fun s => if s = k then some v else a s

/-- Map deletion (the key absent from the arguments map). -/
def Args.erase (a : Args) (k : String) : Args :=
  fun s => if s = k then none else a s

/-- Go two-valued type assertion `v, ok := x.(string)` on a map lookup:
a missing key is the nil interface, whose assertion yields `("", false)`. -/
def asString : Option JValue → String × Bool
  | some (JValue.str s) => (s, true)
  | _ => ("", false)

/-- The optional-parameter idiom of `createEC2Instance`:
`if val, exists := arguments[k]; exists { x, _ = val.(string) }`. -/
def optString (arguments : Args) (k : String) : String :=
  match arguments k with
  | some v => (asString (some v)).1
  | none => ""

/-- First-match association-list lookup, the read side of a Go map
rendered as a list of entries. -/
def pLookup {α : Type} : List (String × α) → String → Option α
  | [], _ => none
  | (a, b) :: t, k => if k = a then some b else pLookup t k

/-- Go map insertion on the entry-list rendering: overwrite the existing
entry for the key, or append a fresh one. -/
def upsert {α : Type} : List (String × α) → String → α → List (String × α)
  | [], k, v => [(k, v)]
  | (a, b) :: t, k, v => if a = k then (a, v) :: t else (a, b) :: upsert t k v

/-- `aws.CreateInstanceParams`. -/
structure CreateInstanceParams where
  imageID : String
  instanceType : String
  keyName : String
  securityGroupID : String
  subnetID : String
  name : String

/-- `types.AWSResource`; `LastSeen` is kept as its formatted string. -/
structure AWSResource where
  id : String
  type : String
  region : String
  state : String
  tags : List (String × String)
  details : List (String × JValue)
  lastSeen : String

/-- The external AWS collaborator (`aws.Client`), one field per method the
server calls.  State is passed as data: each field is the deterministic
outcome the provider returns during the call under consideration.
`GetEC2Instance` receives the URI-extracted id, hence `List Char`. -/
structure Client where
  CreateEC2Instance : CreateInstanceParams → Except String AWSResource
  StartEC2Instance : String → Except String Unit
  StopEC2Instance : String → Except String Unit
  TerminateEC2Instance : String → Except String Unit
  ListEC2Instances : Except String (List AWSResource)
  GetEC2Instance : List Char → Except String AWSResource

/-- `mcp.TextContent`; the JSON-encoded body is kept structured. -/
structure TextContent where
  type : String
  text : JValue

/-- `mcp.CallToolResult`. -/
structure CallToolResult where
  content : List TextContent

/-- `createErrorResponse`: the standardized `success:false` payload. -/
def createErrorResponse (now message : String) : CallToolResult :=
  { content := [{ type := "text",
                  text := JValue.obj [("success", JValue.bool false),
                                      ("error", JValue.str message),
                                      ("timestamp", JValue.str now)] }] }

/-- `createSuccessResponse`: the standardized `success:true` payload with
the extra data entries inserted map-style afterwards. -/
def createSuccessResponse (now message : String) (data : List (String × JValue)) :
    CallToolResult :=
  { content := [{ type := "text",
                  text := JValue.obj (data.foldl (fun acc kv => upsert acc kv.1 kv.2)
                    [("success", JValue.bool true),
                     ("message", JValue.str message),
                     ("timestamp", JValue.str now)]) }] }

/-- `ToolHandler.createEC2Instance`. -/
def createEC2Instance (h : Client) (now : String) (arguments : Args) :
    Except String CallToolResult :=
  let p1 := asString (arguments "imageId")
  if p1.2 = false ∨ p1.1 = "" then
    Except.ok (createErrorResponse now "imageId is required")
  else
    let p2 := asString (arguments "instanceType")
    if p2.2 = false ∨ p2.1 = "" then
      Except.ok (createErrorResponse now "instanceType is required")
    else
      let params : CreateInstanceParams :=
        { imageID := p1.1
          instanceType := p2.1
          keyName := optString arguments "keyName"
          securityGroupID := optString arguments "securityGroupId"
          subnetID := optString arguments "subnetId"
          name := optString arguments "name" }
      match h.CreateEC2Instance params with
      | Except.error e =>
          Except.ok (createErrorResponse now ("failed to create EC2 instance: " ++ e))
      | Except.ok resource =>
          Except.ok (createSuccessResponse now "EC2 instance created successfully"
            [("instanceId", JValue.str resource.id),
             ("state", JValue.str resource.state),
             ("instanceType", (pLookup resource.details "instanceType").getD JValue.null)])

/-- `ToolHandler.startEC2Instance`. -/
def startEC2Instance (h : Client) (now : String) (arguments : Args) :
    Except String CallToolResult :=
  let p := asString (arguments "instanceId")
  if p.2 = false ∨ p.1 = "" then
    Except.ok (createErrorResponse now "instanceId is required")
  else
    match h.StartEC2Instance p.1 with
    | Except.error e =>
        Except.ok (createErrorResponse now ("failed to start EC2 instance: " ++ e))
    | Except.ok _ =>
        Except.ok (createSuccessResponse now "EC2 instance start initiated successfully"
          [("instanceId", JValue.str p.1), ("action", JValue.str "start")])

/-- `ToolHandler.stopEC2Instance`. -/
def stopEC2Instance (h : Client) (now : String) (arguments : Args) :
    Except String CallToolResult :=
  let p := asString (arguments "instanceId")
  if p.2 = false ∨ p.1 = "" then
    Except.ok (createErrorResponse now "instanceId is required")
  else
    match h.StopEC2Instance p.1 with
    | Except.error e =>
        Except.ok (createErrorResponse now ("failed to stop EC2 instance: " ++ e))
    | Except.ok _ =>
        Except.ok (createSuccessResponse now "EC2 instance stop initiated successfully"
          [("instanceId", JValue.str p.1), ("action", JValue.str "stop")])

/-- `ToolHandler.terminateEC2Instance`. -/
def terminateEC2Instance (h : Client) (now : String) (arguments : Args) :
    Except String CallToolResult :=
  let p := asString (arguments "instanceId")
  if p.2 = false ∨ p.1 = "" then
    Except.ok (createErrorResponse now "instanceId is required")
  else
    match h.TerminateEC2Instance p.1 with
    | Except.error e =>
        Except.ok (createErrorResponse now ("failed to terminate EC2 instance: " ++ e))
    | Except.ok _ =>
        Except.ok (createSuccessResponse now "EC2 instance termination initiated successfully"
          [("instanceId", JValue.str p.1), ("action", JValue.str "terminate")])

/-- `ToolHandler.CallTool`: the name switch, whose default case returns a
Go-level error (`nil, fmt.Errorf(...)`), modelled as `Except.error`. -/
def CallTool (h : Client) (now : String) (name : String) (arguments : Args) :
    Except String CallToolResult :=
  if name = "create-ec2-instance" then createEC2Instance h now arguments
  else if name = "start-ec2-instance" then startEC2Instance h now arguments
  else if name = "stop-ec2-instance" then stopEC2Instance h now arguments
  else if name = "terminate-ec2-instance" then terminateEC2Instance h now arguments
  else Except.error ("unknown tool: " ++ name)

/-- The four tool names registered in `registerTools`. -/
def registeredToolNames : List String :=
  ["create-ec2-instance", "start-ec2-instance",
   "stop-ec2-instance", "terminate-ec2-instance"]

/-- Whether an `Except` value is the ok variant. -/
def exceptIsOk {ε α : Type} : Except ε α → Bool
  | Except.ok _ => true
  | Except.error _ => false

/-- The literal list-resource URI `aws://ec2/instances`. -/
def instancesURI : List Char := "aws://ec2/instances".toList

/-- The string `aws://ec2/instances/` that `ReadResource` uses with
`strings.HasPrefix` and `strings.TrimPrefix`. -/
def instanceURIBase : List Char := "aws://ec2/instances/".toList

/-- Outcome of the URI dispatch in `ReadResource`. -/
inductive Route where
  | list
  | detail (instanceID : List Char)
  | notFound
deriving DecidableEq

/-- The switch at the top of `ReadResource`: exact match for the list URI,
otherwise `strings.HasPrefix`/`strings.TrimPrefix` against
`aws://ec2/instances/`, otherwise the unknown-URI error. -/
def resolveURI (uri : List Char) : Route :=
  if uri = instancesURI then Route.list
  else if instanceURIBase.isPrefixOf uri then
    Route.detail (uri.drop instanceURIBase.length)
  else Route.notFound

/-- Go `stateCount[k]++` on the entry-list rendering of a counter map. -/
def bump : List (String × Nat) → String → List (String × Nat)
  | [], k => [(k, 1)]
  | (a, n) :: t, k => if a = k then (a, n + 1) :: t else (a, n) :: bump t k

/-- Render a counter map as a JSON object. -/
def natCountsToJson (l : List (String × Nat)) : JValue :=
  JValue.obj (l.map (fun p => (p.1, JValue.num (Int.ofNat p.2))))

/-- The per-instance entry built inside `formatInstancesForAI`. -/
def formatOneInstance (inst : AWSResource) : JValue :=
  let base : List (String × JValue) :=
    [("id", JValue.str inst.id),
     ("state", JValue.str inst.state),
     ("type", (pLookup inst.details "instanceType").getD JValue.null),
     ("region", JValue.str inst.region)]
  let base :=
    match pLookup inst.tags "Name" with
    | some n => base ++ [("name", JValue.str n)]
    | none => base
  let base :=
    match pLookup inst.details "publicIpAddress" with
    | some v => if v.isNull then base else base ++ [("public_ip", v)]
    | none => base
  let base :=
    match pLookup inst.details "privateIpAddress" with
    | some v => if v.isNull then base else base ++ [("private_ip", v)]
    | none => base
  JValue.obj base

/-- `formatInstancesForAI`: summary object with the per-instance list and
the two counters (the Go single loop is split into a map and two folds
computing the same entries). -/
def formatInstancesForAI (instances : List AWSResource) : JValue :=
  JValue.obj
    [("total_instances", JValue.num (Int.ofNat instances.length)),
     ("instances", JValue.arr (instances.map formatOneInstance)),
     ("summary_by_state",
       natCountsToJson (instances.foldl (fun acc inst => bump acc inst.state) [])),
     ("summary_by_type",
       natCountsToJson (instances.foldl (fun acc inst =>
         match pLookup inst.details "instanceType" with
         | some (JValue.str t) => bump acc t
         | _ => acc) []))]

/-- `formatInstanceForAI`: the detail object for a single instance. -/
def formatInstanceForAI (inst : AWSResource) : JValue :=
  let base : List (String × JValue) :=
    [("id", JValue.str inst.id),
     ("type", JValue.str inst.type),
     ("state", JValue.str inst.state),
     ("region", JValue.str inst.region),
     ("tags", JValue.obj (inst.tags.map (fun p => (p.1, JValue.str p.2)))),
     ("details", JValue.obj inst.details),
     ("last_seen", JValue.str inst.lastSeen)]
  let base :=
    match pLookup inst.tags "Name" with
    | some n => base ++ [("name", JValue.str n)]
    | none => base ++ [("name", JValue.str inst.id)]
  let base :=
    match pLookup inst.tags "Environment" with
    | some e => if e = "" then base else base ++ [("environment", JValue.str e)]
    | none => base
  JValue.obj base

/-- `mcp.TextResourceContents`. -/
structure ResourceContents where
  uri : List Char
  mimeType : String
  text : JValue

/-- `mcp.ReadResourceResult`. -/
structure ReadResourceResult where
  contents : List ResourceContents

/-- `ResourceHandler.readEC2InstancesList`. -/
def readEC2InstancesList (c : Client) : Except String ReadResourceResult :=
  match c.ListEC2Instances with
  | Except.error e => Except.error ("failed to list EC2 instances: " ++ e)
  | Except.ok instances =>
      Except.ok { contents := [{ uri := instancesURI,
                                 mimeType := "application/json",
                                 text := formatInstancesForAI instances }] }

/-- `ResourceHandler.readEC2Instance`. -/
def readEC2Instance (c : Client) (instanceID : List Char) :
    Except String ReadResourceResult :=
  match c.GetEC2Instance instanceID with
  | Except.error e => Except.error ("failed to get EC2 instance: " ++ e)
  | Except.ok inst =>
      Except.ok { contents := [{ uri := instanceURIBase ++ instanceID,
                                 mimeType := "application/json",
                                 text := formatInstanceForAI inst }] }

/-- `ResourceHandler.ReadResource`: dispatch through `resolveURI`, the
factored form of the Go switch. -/
def ReadResource (c : Client) (uri : List Char) : Except String ReadResourceResult :=
  match resolveURI uri with
  | Route.list => readEC2InstancesList c
  | Route.detail id => readEC2Instance c id
  | Route.notFound => Except.error ("unknown resource URI: " ++ String.mk uri)

/-- Whether a path segment is a `\x7bname\x7d` placeholder. -/
def isPlaceholderSeg (seg : List Char) : Bool :=
  match seg with
  | '{' :: rest => rest.getLast? == some '}'
  | _ => false

/-- The placeholder name of a placeholder segment. -/
def placeName (seg : List Char) : List Char :=
  (seg.drop 1).dropLast

/-- Modelled from the spec (section 4.1), for comparison with the code:
segment-by-segment template matching in which a literal segment must be
byte-for-byte equal and a placeholder segment binds one non-empty segment. -/
def specSegsMatch : List (List Char) → List (List Char) →
    Option (List (List Char × List Char))
  | [], [] => some []
  | p :: ps, u :: us =>
      if isPlaceholderSeg p then
        if u.isEmpty then none
        else (specSegsMatch ps us).map (fun b => (placeName p, u) :: b)
      else if p = u then specSegsMatch ps us
      else none
  | _, _ => none

/-- The segments of the registered template `aws://ec2/instances/\x7binstanceId\x7d`. -/
def templateSegs : List (List Char) :=
  "aws://ec2/instances/{instanceId}".toList.splitOn '/'

/-- Modelled from the spec (section 4.1): `resolve` as the spec words it for
the registered resources — exact literal match first, then segment matching
of the single registered template, never a partial or prefix match. -/
def specSegmentResolve (uri : List Char) :
    Option (List (List Char × List Char)) :=
  if uri = instancesURI then some []
  else specSegsMatch templateSegs (uri.splitOn '/')

/-- How the transport loop of `Server.Start` ends. -/
inductive LoopExit where
  | cancelled
  | eofDone
  | readFault (msg : String)
deriving DecidableEq

/-- `Server.Start`: the stdio read loop.  `handle` is the library
`HandleMessage` plus marshalling (`none` means no response line is written),
`cancel i` is whether the shutdown signal has been delivered when iteration
`i` runs its `select`, `lines` are the successful `scanner.Scan` reads and
the final `Option String` is `scanner.Err()`.  Returns the written response
lines and the loop exit. -/
def serverLoop (handle : String → Option String) (cancel : Nat → Bool) :
    Nat → List String → Option String → List String × LoopExit
  | _, [], none => ([], LoopExit.eofDone)
  | _, [], some e => ([], LoopExit.readFault e)
  | i, line :: rest, scanErr =>
      if cancel i then ([], LoopExit.cancelled)
      else if line = "" then serverLoop handle cancel (i + 1) rest scanErr
      else
        match handle line with
        | none => serverLoop handle cancel (i + 1) rest scanErr
        | some resp =>
            let r := serverLoop handle cancel (i + 1) rest scanErr
            (resp :: r.1, r.2)

/-- A concrete collaborator used by witnesses and counterexamples: the
provider rejects every action and holds no instances. -/
def clientEx : Client :=
  { CreateEC2Instance := fun _ => Except.error "api offline"
    StartEC2Instance := fun _ => Except.error "api offline"
    StopEC2Instance := fun _ => Except.error "api offline"
    TerminateEC2Instance := fun _ => Except.error "api offline"
    ListEC2Instances := Except.ok []
    GetEC2Instance := fun _ => Except.error "not found" }

/-- A type assertion on a missing key (nil interface) yields the zero value. -/
theorem asString_none : asString none = ("", false) := rfl

/-- A failed Go string type assertion yields the zero value and `false`. -/
theorem asString_some_not_string (v : JValue) (h : v.isString = false) :
    asString (some v) = ("", false) := by
  cases v with
  | str s => simp [JValue.isString] at h
  | num n => rfl
  | bool b => rfl
  | null => rfl
  | arr xs => rfl
  | obj fs => rfl

/-- Lookup after a map-style insert: the inserted key reads back the new
value, every other key is unchanged. -/
theorem pLookup_upsert {α : Type} (l : List (String × α)) (k k' : String) (v : α) :
    pLookup (upsert l k v) k' = if k' = k then some v else pLookup l k' := by
  induction l with
  | nil => simp [upsert, pLookup]
  | cons hd t ih =>
      obtain ⟨a, b⟩ := hd
      rcases eq_or_ne a k with rfl | hak
      · simp only [upsert, if_pos rfl, pLookup]
        rcases eq_or_ne k' a with rfl | hk
        · simp
        · simp [hk]
      · simp only [upsert, if_neg hak, pLookup, ih]
        rcases eq_or_ne k' a with rfl | hka
        · have hkk : k' ≠ k := hak
          simp [hkk]
        · simp [hka]

/-- Claim C1 (counterexample): dispatching `tools/call` for an unregistered
tool name does not yield a successful envelope wrapping a Failure payload;
`CallTool` returns a Go-level error `unknown tool: <name>` with a nil
result, exactly as its unit test asserts. -/
theorem unknown_tool_go_error_cex :
    CallTool clientEx "T" "unknown-tool" emptyArgs =
      Except.error "unknown tool: unknown-tool" ∧
    exceptIsOk (CallTool clientEx "T" "unknown-tool" emptyArgs) = false :=
  ⟨rfl, rfl⟩

/-- Claim C1 (amended): for every tool name outside the registry,
`CallTool` returns the protocol-level Go error `unknown tool: <name>`
(never a success envelope), for every arguments map and collaborator. -/
theorem unknown_tool_errors_amended (name : String)
    (hn : name ∉ registeredToolNames) (c : Client) (now : String) (args : Args) :
    CallTool c now name args = Except.error ("unknown tool: " ++ name) := by
  simp only [registeredToolNames, List.mem_cons, List.mem_singleton,
    not_or] at hn
  obtain ⟨h1, h2, h3, h4⟩ := hn
  simp [CallTool, h1, h2, h3, h4]

/-- Claim C1 (witness for the amended theorem). -/
theorem unknown_tool_errors_amended_wit :
    CallTool clientEx "T" "mystery" emptyArgs = Except.error "unknown tool: mystery" :=
  unknown_tool_errors_amended "mystery" (by decide) clientEx "T" emptyArgs

/-- Claim C5 (counterexample): the URI `aws://ec2/instances/` with a
trailing empty segment is not reported as NotFound — it matches the
instance-detail branch with the empty string bound as the instance id. -/
theorem trailing_slash_matches_cex :
    resolveURI "aws://ec2/instances/".toList = Route.detail [] ∧
    Route.detail [] ≠ Route.notFound :=
  ⟨by decide, by decide⟩

/-- Claim C5 (amended): a leading empty segment (double slash inside the
path) is a non-match, but a trailing empty segment matches the
instance-detail resource with the empty remainder as instance id, and a
trailing slash after an id keeps the slash inside the bound id; no input
crashes the dispatcher (it is a total function). -/
theorem empty_segment_routing_amended :
    resolveURI "aws://ec2//instances".toList = Route.notFound ∧
    resolveURI "aws://ec2/instances/".toList = Route.detail "".toList ∧
    resolveURI "aws://ec2/instances/i-1/".toList = Route.detail "i-1/".toList :=
  ⟨by decide, by decide, by decide⟩

/-- Claim C7: the transport loop checks the cancellation signal before
processing each read line; when the signal is set at iteration `i` the loop
returns the cancellation exit without dispatching the pending line, and a
run whose starting iteration is already cancelled writes no responses. -/
theorem cancel_skips_pending_line (handle : String → Option String)
    (cancel : Nat → Bool) (i : Nat) (scanErr : Option String)
    (h : cancel i = true) :
    (∀ (line : String) (rest : List String),
      serverLoop handle cancel i (line :: rest) scanErr = ([], LoopExit.cancelled)) ∧
    (∀ lines : List String, (serverLoop handle cancel i lines scanErr).1 = []) := by
  constructor
  · intro line rest
    simp [serverLoop, h]
  · intro lines
    cases lines with
    | nil => cases scanErr <;> simp [serverLoop]
    | cons l t => simp [serverLoop, h]

/-- Claim C7 (witness). -/
theorem cancel_skips_pending_line_wit :
    serverLoop (fun _ => none) (fun _ => true) 0 ["ping"] none =
      ([], LoopExit.cancelled) :=
  (cancel_skips_pending_line (fun _ => none) (fun _ => true) 0 none rfl).1 "ping" []

/-- Claim C2 (counterexample): the URI `aws://ec2/instances/a/b` has more
path segments than the registered template `aws://ec2/instances/\x7binstanceId\x7d`,
so the spec's segment matcher rejects it; the code nevertheless matches it
by string prefix and binds `a/b` (containing a slash) as the instance id. -/
theorem template_prefix_overmatch_cex :
    resolveURI "aws://ec2/instances/a/b".toList = Route.detail "a/b".toList ∧
    specSegmentResolve "aws://ec2/instances/a/b".toList = none :=
  ⟨by decide, by decide⟩

/-- Claim C2 (amended): template matching in the code is prefix-based, not
segment-based — a URI resolves to the instance-detail resource with bound
id `id` precisely when it is the literal prefix `aws://ec2/instances/`
followed by `id`, with no constraint on `id` (it may be empty or contain
further slash-delimited segments). -/
theorem detail_route_iff_append (uri id : List Char) :
    resolveURI uri = Route.detail id ↔ uri = instanceURIBase ++ id := by
  constructor
  · intro h
    unfold resolveURI at h
    by_cases h1 : uri = instancesURI
    · rw [if_pos h1] at h
      exact absurd h (by simp)
    · rw [if_neg h1] at h
      by_cases h2 : instanceURIBase.isPrefixOf uri
      · rw [if_pos h2] at h
        have hid : uri.drop instanceURIBase.length = id := by
          simpa using h
        obtain ⟨t, ht⟩ := List.isPrefixOf_iff_prefix.mp h2
        have hdrop : uri.drop instanceURIBase.length = t := by
          rw [← ht]
          exact List.drop_left _ _
        have hti : id = t := by rw [← hid, hdrop]
        rw [← ht, hti]
      · rw [if_neg h2] at h
        exact absurd h (by simp)
  · rintro rfl
    unfold resolveURI
    have hne : ¬ instanceURIBase ++ id = instancesURI := by
      intro heq
      have hlen := congrArg List.length heq
      rw [List.length_append] at hlen
      have hb : instanceURIBase.length = 20 := by decide
      have hi : instancesURI.length = 19 := by decide
      rw [hb, hi] at hlen
      omega
    rw [if_neg hne,
      if_pos (List.isPrefixOf_iff_prefix.mpr (List.prefix_append _ _)),
      List.drop_left]

/-- Claim C2 (witness for the amended theorem). -/
theorem detail_route_iff_append_wit :
    resolveURI (instanceURIBase ++ "i-9".toList) = Route.detail "i-9".toList :=
  (detail_route_iff_append (instanceURIBase ++ "i-9".toList) "i-9".toList).mpr rfl

/-- Claim C8: reading a resource twice while the collaborator answers both
calls with the same records yields identical result payloads, for every URI
(hence both for the literal list resource and for the instance-detail
template resource); the handlers introduce no state of their own. -/
theorem resources_read_idempotent (c1 c2 : Client) (uri : List Char)
    (hList : c1.ListEC2Instances = c2.ListEC2Instances)
    (hGet : c1.GetEC2Instance = c2.GetEC2Instance) :
    ReadResource c1 uri = ReadResource c2 uri := by
  unfold ReadResource
  cases resolveURI uri with
  | list =>
      unfold readEC2InstancesList
      rw [hList]
  | detail id =>
      unfold readEC2Instance
      rw [hGet]
  | notFound => rfl

/-- Claim C8 (witness). -/
theorem resources_read_idempotent_wit :
    ReadResource clientEx instancesURI = ReadResource clientEx instancesURI :=
  resources_read_idempotent clientEx clientEx instancesURI rfl rfl

/-- Claim C3 (counterexample): with both required parameters missing from a
`create-ec2-instance` call, the handler reports only the first-checked
parameter — for the required parameter `instanceType` and the empty
arguments map the message is `imageId is required`, not
`instanceType is required` as the claim requires for that parameter. -/
theorem required_param_first_failure_cex :
    CallTool clientEx "T" "create-ec2-instance" emptyArgs =
      Except.ok (createErrorResponse "T" "imageId is required") ∧
    createErrorResponse "T" "imageId is required" ≠
      createErrorResponse "T" "instanceType is required" := by
  refine ⟨rfl, ?_⟩
  simp [createErrorResponse]

/-- Claim C3 (amended): a required parameter that is absent or bound to the
empty string yields `Failure \x7b<param> is required\x7d` naming the first
required parameter in the handler's fixed checking order that fails
(`imageId` before `instanceType` for create); in particular it names the
parameter itself whenever all parameters checked earlier pass.  The result
is the same for every collaborator, so the underlying action is never
invoked. -/
theorem required_param_validation_amended :
    (∀ (c : Client) (now : String) (args : Args),
        (args "instanceId" = none ∨ args "instanceId" = some (JValue.str "")) →
        startEC2Instance c now args =
          Except.ok (createErrorResponse now "instanceId is required") ∧
        stopEC2Instance c now args =
          Except.ok (createErrorResponse now "instanceId is required") ∧
        terminateEC2Instance c now args =
          Except.ok (createErrorResponse now "instanceId is required")) ∧
    (∀ (c : Client) (now : String) (args : Args),
        (args "imageId" = none ∨ args "imageId" = some (JValue.str "")) →
        createEC2Instance c now args =
          Except.ok (createErrorResponse now "imageId is required")) ∧
    (∀ (c : Client) (now : String) (args : Args),
        (asString (args "imageId")).2 = true →
        (asString (args "imageId")).1 ≠ "" →
        (args "instanceType" = none ∨ args "instanceType" = some (JValue.str "")) →
        createEC2Instance c now args =
          Except.ok (createErrorResponse now "instanceType is required")) := by
  refine ⟨?_, ?_, ?_⟩
  · intro c now args h
    rcases h with h | h <;>
      exact ⟨by simp [startEC2Instance, h, asString],
             by simp [stopEC2Instance, h, asString],
             by simp [terminateEC2Instance, h, asString]⟩
  · intro c now args h
    rcases h with h | h <;> simp [createEC2Instance, h, asString]
  · intro c now args h1 h2 h
    have hcond : ¬((asString (args "imageId")).2 = false ∨
        (asString (args "imageId")).1 = "") := by
      simp [h1, h2]
    rcases h with h | h
    · simp only [createEC2Instance, h]
      rw [if_neg hcond]
      simp [asString]
    · simp only [createEC2Instance, h]
      rw [if_neg hcond]
      simp [asString]

/-- Claim C3 (witness for the amended theorem). -/
theorem required_param_validation_amended_wit :
    startEC2Instance clientEx "T" emptyArgs =
      Except.ok (createErrorResponse "T" "instanceId is required") :=
  (required_param_validation_amended.1 clientEx "T" emptyArgs (Or.inl rfl)).1

/-- Claim C4: when argument validation passes and the collaborator call
fails with error text `e`, every one of the four tools returns a Failure
whose message is the tool's `failed to <action>: ` prefix followed by `e`
verbatim. -/
theorem collab_error_verbatim :
    (∀ (c : Client) (now : String) (args : Args) (e : String),
        (asString (args "imageId")).2 = true →
        (asString (args "imageId")).1 ≠ "" →
        (asString (args "instanceType")).2 = true →
        (asString (args "instanceType")).1 ≠ "" →
        c.CreateEC2Instance
          { imageID := (asString (args "imageId")).1
            instanceType := (asString (args "instanceType")).1
            keyName := optString args "keyName"
            securityGroupID := optString args "securityGroupId"
            subnetID := optString args "subnetId"
            name := optString args "name" } = Except.error e →
        createEC2Instance c now args =
          Except.ok (createErrorResponse now ("failed to create EC2 instance: " ++ e))) ∧
    (∀ (c : Client) (now : String) (args : Args) (e : String),
        (asString (args "instanceId")).2 = true →
        (asString (args "instanceId")).1 ≠ "" →
        c.StartEC2Instance (asString (args "instanceId")).1 = Except.error e →
        startEC2Instance c now args =
          Except.ok (createErrorResponse now ("failed to start EC2 instance: " ++ e))) ∧
    (∀ (c : Client) (now : String) (args : Args) (e : String),
        (asString (args "instanceId")).2 = true →
        (asString (args "instanceId")).1 ≠ "" →
        c.StopEC2Instance (asString (args "instanceId")).1 = Except.error e →
        stopEC2Instance c now args =
          Except.ok (createErrorResponse now ("failed to stop EC2 instance: " ++ e))) ∧
    (∀ (c : Client) (now : String) (args : Args) (e : String),
        (asString (args "instanceId")).2 = true →
        (asString (args "instanceId")).1 ≠ "" →
        c.TerminateEC2Instance (asString (args "instanceId")).1 = Except.error e →
        terminateEC2Instance c now args =
          Except.ok (createErrorResponse now ("failed to terminate EC2 instance: " ++ e))) := by
  refine ⟨?_, ?_, ?_, ?_⟩
  · intro c now args e h1 h2 h3 h4 hc
    simp [createEC2Instance, h1, h2, h3, h4, hc]
  · intro c now args e h1 h2 hc
    simp [startEC2Instance, h1, h2, hc]
  · intro c now args e h1 h2 hc
    simp [stopEC2Instance, h1, h2, hc]
  · intro c now args e h1 h2 hc
    simp [terminateEC2Instance, h1, h2, hc]

/-- Claim C4 (witness). -/
theorem collab_error_verbatim_wit :
    startEC2Instance clientEx "T" (Args.set emptyArgs "instanceId" (JValue.str "i-1")) =
      Except.ok (createErrorResponse "T" "failed to start EC2 instance: api offline") :=
  collab_error_verbatim.2.1 clientEx "T"
    (Args.set emptyArgs "instanceId" (JValue.str "i-1")) "api offline" rfl (by decide) rfl

/-- Claim C6: an optional parameter of `create-ec2-instance` that is
present but bound to a non-string value is coerced to the empty string, so
the call behaves exactly as if the parameter were absent, for every
arguments map and collaborator; in particular it never fails validation. -/
theorem optional_nonstring_as_absent (c : Client) (now : String) (args : Args)
    (k : String) (v : JValue)
    (hk : k = "keyName" ∨ k = "securityGroupId" ∨ k = "subnetId" ∨ k = "name")
    (hv : v.isString = false) :
    createEC2Instance c now (Args.set args k v) =
      createEC2Instance c now (Args.erase args k) := by
  have hv1 : asString (some v) = ("", false) := asString_some_not_string v hv
  rcases hk with rfl | rfl | rfl | rfl <;>
    simp [createEC2Instance, optString, Args.set, Args.erase, hv1]

/-- Claim C6 (witness). -/
theorem optional_nonstring_as_absent_wit :
    createEC2Instance clientEx "T" (Args.set emptyArgs "keyName" (JValue.num 5)) =
      createEC2Instance clientEx "T" (Args.erase emptyArgs "keyName") :=
  optional_nonstring_as_absent clientEx "T" emptyArgs "keyName" (JValue.num 5)
    (Or.inl rfl) rfl

/-- Claim C9: for each of the four registered tools, `CallTool` returns a
non-nil result with a nil Go error for every arguments map and every
collaborator outcome; the payload always carries a `timestamp` equal to the
generation time and a boolean `success` flag — `false` with an `error`
message for validation and collaborator failures, `true` with a `message`
otherwise. -/
theorem calltool_total_ok (name : String) (hn : name ∈ registeredToolNames)
    (c : Client) (now : String) (args : Args) :
    ∃ p : List (String × JValue),
      CallTool c now name args =
        Except.ok { content := [{ type := "text", text := JValue.obj p }] } ∧
      pLookup p "timestamp" = some (JValue.str now) ∧
      ((pLookup p "success" = some (JValue.bool false) ∧
          ∃ m, pLookup p "error" = some (JValue.str m)) ∨
       (pLookup p "success" = some (JValue.bool true) ∧
          ∃ m, pLookup p "message" = some (JValue.str m))) := by
  simp only [registeredToolNames, List.mem_cons, List.mem_singleton,
    List.not_mem_nil, or_false] at hn
  rcases hn with rfl | rfl | rfl | rfl
  · -- create-ec2-instance
    simp only [CallTool]
    rw [if_true]
    by_cases hv1 : (asString (args "imageId")).2 = false ∨ (asString (args "imageId")).1 = ""
    · refine ⟨[("success", JValue.bool false),
               ("error", JValue.str "imageId is required"),
               ("timestamp", JValue.str now)], ?_, ?_, ?_⟩
      · simp only [createEC2Instance]
        rw [if_pos hv1]
        rfl
      · simp [pLookup]
      · exact Or.inl ⟨by simp [pLookup], ⟨"imageId is required", by simp [pLookup]⟩⟩
    · by_cases hv2 : (asString (args "instanceType")).2 = false ∨
          (asString (args "instanceType")).1 = ""
      · refine ⟨[("success", JValue.bool false),
                 ("error", JValue.str "instanceType is required"),
                 ("timestamp", JValue.str now)], ?_, ?_, ?_⟩
        · simp only [createEC2Instance]
          rw [if_neg hv1, if_pos hv2]
          rfl
        · simp [pLookup]
        · exact Or.inl ⟨by simp [pLookup],
            ⟨"instanceType is required", by simp [pLookup]⟩⟩
      · cases hE : c.CreateEC2Instance
            { imageID := (asString (args "imageId")).1
              instanceType := (asString (args "instanceType")).1
              keyName := optString args "keyName"
              securityGroupID := optString args "securityGroupId"
              subnetID := optString args "subnetId"
              name := optString args "name" } with
        | error e =>
            refine ⟨[("success", JValue.bool false),
                     ("error", JValue.str ("failed to create EC2 instance: " ++ e)),
                     ("timestamp", JValue.str now)], ?_, ?_, ?_⟩
            · simp only [createEC2Instance]
              rw [if_neg hv1, if_neg hv2, hE]
              rfl
            · simp [pLookup]
            · exact Or.inl ⟨by simp [pLookup], ⟨"failed to create EC2 instance: " ++ e, by simp [pLookup]⟩⟩
        | ok r =>
            refine ⟨[("success", JValue.bool true),
                     ("message", JValue.str "EC2 instance created successfully"),
                     ("timestamp", JValue.str now),
                     ("instanceId", JValue.str r.id),
                     ("state", JValue.str r.state),
                     ("instanceType", (pLookup r.details "instanceType").getD JValue.null)],
                ?_, ?_, ?_⟩
            · simp only [createEC2Instance]
              rw [if_neg hv1, if_neg hv2, hE]
              rfl
            · simp [pLookup]
            · exact Or.inr ⟨by simp [pLookup], ⟨"EC2 instance created successfully", by simp [pLookup]⟩⟩
  · -- start-ec2-instance
    simp only [CallTool]
    rw [if_neg (show ¬("start-ec2-instance" = "create-ec2-instance") by decide),
      if_true]
    by_cases hv : (asString (args "instanceId")).2 = false ∨
        (asString (args "instanceId")).1 = ""
    · refine ⟨[("success", JValue.bool false),
               ("error", JValue.str "instanceId is required"),
               ("timestamp", JValue.str now)], ?_, ?_, ?_⟩
      · simp only [startEC2Instance]
        rw [if_pos hv]
        rfl
      · simp [pLookup]
      · exact Or.inl ⟨by simp [pLookup], ⟨"instanceId is required", by simp [pLookup]⟩⟩
    · cases hE : c.StartEC2Instance (asString (args "instanceId")).1 with
      | error e =>
          refine ⟨[("success", JValue.bool false),
                   ("error", JValue.str ("failed to start EC2 instance: " ++ e)),
                   ("timestamp", JValue.str now)], ?_, ?_, ?_⟩
          · simp only [startEC2Instance]
            rw [if_neg hv, hE]
            rfl
          · simp [pLookup]
          · exact Or.inl ⟨by simp [pLookup], ⟨"failed to start EC2 instance: " ++ e, by simp [pLookup]⟩⟩
      | ok u =>
          refine ⟨[("success", JValue.bool true),
                   ("message", JValue.str "EC2 instance start initiated successfully"),
                   ("timestamp", JValue.str now),
                   ("instanceId", JValue.str (asString (args "instanceId")).1),
                   ("action", JValue.str "start")], ?_, ?_, ?_⟩
          · simp only [startEC2Instance]
            rw [if_neg hv, hE]
            rfl
          · simp [pLookup]
          · exact Or.inr ⟨by simp [pLookup], ⟨"EC2 instance start initiated successfully", by simp [pLookup]⟩⟩
  · -- stop-ec2-instance
    simp only [CallTool]
    rw [if_neg (show ¬("stop-ec2-instance" = "create-ec2-instance") by decide),
      if_neg (show ¬("stop-ec2-instance" = "start-ec2-instance") by decide),
      if_true]
    by_cases hv : (asString (args "instanceId")).2 = false ∨
        (asString (args "instanceId")).1 = ""
    · refine ⟨[("success", JValue.bool false),
               ("error", JValue.str "instanceId is required"),
               ("timestamp", JValue.str now)], ?_, ?_, ?_⟩
      · simp only [stopEC2Instance]
        rw [if_pos hv]
        rfl
      · simp [pLookup]
      · exact Or.inl ⟨by simp [pLookup], ⟨"instanceId is required", by simp [pLookup]⟩⟩
    · cases hE : c.StopEC2Instance (asString (args "instanceId")).1 with
      | error e =>
          refine ⟨[("success", JValue.bool false),
                   ("error", JValue.str ("failed to stop EC2 instance: " ++ e)),
                   ("timestamp", JValue.str now)], ?_, ?_, ?_⟩
          · simp only [stopEC2Instance]
            rw [if_neg hv, hE]
            rfl
          · simp [pLookup]
          · exact Or.inl ⟨by simp [pLookup], ⟨"failed to stop EC2 instance: " ++ e, by simp [pLookup]⟩⟩
      | ok u =>
          refine ⟨[("success", JValue.bool true),
                   ("message", JValue.str "EC2 instance stop initiated successfully"),
                   ("timestamp", JValue.str now),
                   ("instanceId", JValue.str (asString (args "instanceId")).1),
                   ("action", JValue.str "stop")], ?_, ?_, ?_⟩
          · simp only [stopEC2Instance]
            rw [if_neg hv, hE]
            rfl
          · simp [pLookup]
          · exact Or.inr ⟨by simp [pLookup], ⟨"EC2 instance stop initiated successfully", by simp [pLookup]⟩⟩
  · -- terminate-ec2-instance
    simp only [CallTool]
    rw [if_neg (show ¬("terminate-ec2-instance" = "create-ec2-instance") by decide),
      if_neg (show ¬("terminate-ec2-instance" = "start-ec2-instance") by decide),
      if_neg (show ¬("terminate-ec2-instance" = "stop-ec2-instance") by decide),
      if_true]
    by_cases hv : (asString (args "instanceId")).2 = false ∨
        (asString (args "instanceId")).1 = ""
    · refine ⟨[("success", JValue.bool false),
               ("error", JValue.str "instanceId is required"),
               ("timestamp", JValue.str now)], ?_, ?_, ?_⟩
      · simp only [terminateEC2Instance]
        rw [if_pos hv]
        rfl
      · simp [pLookup]
      · exact Or.inl ⟨by simp [pLookup], ⟨"instanceId is required", by simp [pLookup]⟩⟩
    · cases hE : c.TerminateEC2Instance (asString (args "instanceId")).1 with
      | error e =>
          refine ⟨[("success", JValue.bool false),
                   ("error", JValue.str ("failed to terminate EC2 instance: " ++ e)),
                   ("timestamp", JValue.str now)], ?_, ?_, ?_⟩
          · simp only [terminateEC2Instance]
            rw [if_neg hv, hE]
            rfl
          · simp [pLookup]
          · exact Or.inl ⟨by simp [pLookup], ⟨"failed to terminate EC2 instance: " ++ e, by simp [pLookup]⟩⟩
      | ok u =>
          refine ⟨[("success", JValue.bool true),
                   ("message", JValue.str "EC2 instance termination initiated successfully"),
                   ("timestamp", JValue.str now),
                   ("instanceId", JValue.str (asString (args "instanceId")).1),
                   ("action", JValue.str "terminate")], ?_, ?_, ?_⟩
          · simp only [terminateEC2Instance]
            rw [if_neg hv, hE]
            rfl
          · simp [pLookup]
          · exact Or.inr ⟨by simp [pLookup], ⟨"EC2 instance termination initiated successfully", by simp [pLookup]⟩⟩

/-- Claim C9 (witness). -/
theorem calltool_total_ok_wit :
    ∃ p : List (String × JValue),
      CallTool clientEx "T" "start-ec2-instance" emptyArgs =
        Except.ok { content := [{ type := "text", text := JValue.obj p }] } ∧
      pLookup p "timestamp" = some (JValue.str "T") ∧
      ((pLookup p "success" = some (JValue.bool false) ∧
          ∃ m, pLookup p "error" = some (JValue.str m)) ∨
       (pLookup p "success" = some (JValue.bool true) ∧
          ∃ m, pLookup p "message" = some (JValue.str m))) :=
  calltool_total_ok "start-ec2-instance" (by decide) clientEx "T" emptyArgs

/-- Claim C10 (counterexample): binding the required parameter
`instanceType` of `create-ec2-instance` to a non-string value while
`imageId` is also missing yields `imageId is required` — not
`instanceType is required` as claimed for that parameter — because the
handler reports only the first-checked failing parameter. -/
theorem required_nonstring_first_failure_cex :
    CallTool clientEx "T" "create-ec2-instance"
        (Args.set emptyArgs "instanceType" (JValue.bool true)) =
      Except.ok (createErrorResponse "T" "imageId is required") ∧
    createErrorResponse "T" "imageId is required" ≠
      createErrorResponse "T" "instanceType is required" := by
  refine ⟨rfl, ?_⟩
  simp [createErrorResponse]

/-- Claim C10 (amended): a required parameter bound to a non-string value
is treated exactly as if the parameter were absent — the call result
coincides with the erased-key call for every collaborator and arguments
map; consequently the handler returns `Failure \x7b<param> is required\x7d`
naming that parameter whenever every required parameter checked earlier
passes validation, and the collaborator is never invoked (the result is
collaborator-independent). -/
theorem required_nonstring_as_absent_amended :
    (∀ (c : Client) (now : String) (args : Args) (v : JValue),
        v.isString = false →
        (CallTool c now "create-ec2-instance" (Args.set args "imageId" v) =
           CallTool c now "create-ec2-instance" (Args.erase args "imageId")) ∧
        (CallTool c now "create-ec2-instance" (Args.set args "instanceType" v) =
           CallTool c now "create-ec2-instance" (Args.erase args "instanceType")) ∧
        (CallTool c now "start-ec2-instance" (Args.set args "instanceId" v) =
           CallTool c now "start-ec2-instance" (Args.erase args "instanceId")) ∧
        (CallTool c now "stop-ec2-instance" (Args.set args "instanceId" v) =
           CallTool c now "stop-ec2-instance" (Args.erase args "instanceId")) ∧
        (CallTool c now "terminate-ec2-instance" (Args.set args "instanceId" v) =
           CallTool c now "terminate-ec2-instance" (Args.erase args "instanceId"))) ∧
    (∀ (c : Client) (now : String) (args : Args) (v : JValue),
        v.isString = false →
        (startEC2Instance c now (Args.set args "instanceId" v) =
           Except.ok (createErrorResponse now "instanceId is required")) ∧
        (stopEC2Instance c now (Args.set args "instanceId" v) =
           Except.ok (createErrorResponse now "instanceId is required")) ∧
        (terminateEC2Instance c now (Args.set args "instanceId" v) =
           Except.ok (createErrorResponse now "instanceId is required")) ∧
        (createEC2Instance c now (Args.set args "imageId" v) =
           Except.ok (createErrorResponse now "imageId is required")) ∧
        ((asString (args "imageId")).2 = true →
         (asString (args "imageId")).1 ≠ "" →
         createEC2Instance c now (Args.set args "instanceType" v) =
           Except.ok (createErrorResponse now "instanceType is required"))) := by
  constructor
  · intro c now args v hv
    have hv1 : asString (some v) = ("", false) := asString_some_not_string v hv
    refine ⟨?_, ?_, ?_, ?_, ?_⟩ <;>
      simp [CallTool, createEC2Instance, startEC2Instance, stopEC2Instance,
        terminateEC2Instance, optString, Args.set, Args.erase, hv1, asString_none]
  · intro c now args v hv
    have hv1 : asString (some v) = ("", false) := asString_some_not_string v hv
    refine ⟨?_, ?_, ?_, ?_, ?_⟩
    · simp [startEC2Instance, Args.set, hv1]
    · simp [stopEC2Instance, Args.set, hv1]
    · simp [terminateEC2Instance, Args.set, hv1]
    · simp [createEC2Instance, Args.set, hv1]
    · intro h1 h2
      have hcond : ¬((asString (Args.set args "instanceType" v "imageId")).2 = false ∨
          (asString (Args.set args "instanceType" v "imageId")).1 = "") := by
        simp [Args.set, h1, h2]
      simp only [createEC2Instance]
      rw [if_neg hcond]
      simp [Args.set, hv1]

/-- Claim C10 (witness for the amended theorem). -/
theorem required_nonstring_as_absent_amended_wit :
    startEC2Instance clientEx "T" (Args.set emptyArgs "instanceId" (JValue.bool true)) =
      Except.ok (createErrorResponse "T" "instanceId is required") :=
  (required_nonstring_as_absent_amended.2 clientEx "T" emptyArgs (JValue.bool true) rfl).1
